import Mathlib

/-!
Verification of the umami-api-client library: a shallow embedding of the
time-period normalizer (utils/time-periods module, convertPeriodToTime)
and of the authenticated transport (UmamiApiClient: constructor and the
private request interceptor), together with theorems settling the frozen
claims about them.

JavaScript wall-clock reads are modelled by a `World` holding a clock (a
function from sample index to milliseconds) and a tick counter: each
textual occurrence of `Date.now()` in the source consumes one sample, so
the embedding can distinguish code that samples the clock once from code
that samples it twice.
-/

namespace UmamiClient

/-- The ambient world: a wall clock, sampled one tick at a time. -/
structure World where
  clock : Nat → Int
  tick : Nat

/-- One `Date.now()` call: read the sample at the current tick, advance. -/
def dateNow (w : World) : Int × World :=
  (w.clock w.tick, { w with tick := w.tick + 1 })

/-- Accepted hour-class period spellings (HOUR_PERIODS in the source). -/
def HOUR_PERIODS : List String := ["1h", "1hour", "60min", "60minutes"]

/-- Accepted day-class period spellings (DAY_PERIODS in the source). -/
def DAY_PERIODS : List String := ["1d", "1day", "24h", "24hours"]

/-- Accepted week-class period spellings (WEEK_PERIODS in the source). -/
def WEEK_PERIODS : List String := ["7d", "7days", "1w", "1week"]

/-- Accepted month-class period spellings (MONTH_PERIODS in the source). -/
def MONTH_PERIODS : List String := ["31d", "31days", "1m", "1month"]

/-- All sixteen accepted spellings, in the order the source spreads the
four lists into the error message. -/
def ACCEPTED_PERIODS : List String :=
  HOUR_PERIODS ++ DAY_PERIODS ++ WEEK_PERIODS ++ MONTH_PERIODS

/-- The string thrown for an unrecognized token. The source throws a
template literal interpolating the spread of the four lists; JavaScript
stringifies an array by joining its elements with commas. -/
def periodErrorMessage : String :=
  "Unexpected period provided. Accepted values are : " ++
    String.intercalate "," ACCEPTED_PERIODS

/-- The object convertPeriodToTime returns on success. -/
structure TimeRange where
  startAt : Int
  endAt : Int
  deriving DecidableEq, Repr

/-- The if/else chain of convertPeriodToTime choosing `delta`, embedded
as a function from the token to either the thrown message or the chosen
duration in milliseconds. Membership mirrors Array.prototype.includes. -/
def periodDelta (period : String) : Except String Int :=
  if period ∈ HOUR_PERIODS then .ok (60 * 60 * 1000)
  else if period ∈ DAY_PERIODS then .ok (24 * 60 * 60 * 1000)
  else if period ∈ WEEK_PERIODS then .ok (7 * 24 * 60 * 60 * 1000)
  else if period ∈ MONTH_PERIODS then .ok (31 * 24 * 60 * 60 * 1000)
  else .error periodErrorMessage

/-- Shallow embedding of convertPeriodToTime. On a recognized token the
source returns an object literal whose startAt field evaluates
`Date.now() - delta` and whose endAt field evaluates a second
`Date.now()`, in that order, so two clock samples are consumed. On an
unrecognized token it throws before any clock read. -/
def convertPeriodToTime (period : String) (w : World) :
    Except String TimeRange × World :=
  match periodDelta period with
  | .error e => (.error e, w)
  | .ok delta =>
      let (t1, w1) := dateNow w
      let (t2, w2) := dateNow w1
      (.ok { startAt := t1 - delta, endAt := t2 }, w2)

/-- Calling convertPeriodToTime with the argument omitted: the source
declares the parameter with default value "24h". -/
def convertPeriodToTimeNoArg (w : World) : Except String TimeRange × World :=
  convertPeriodToTime "24h" w

/-- The user record inside the login response (AuthData in the source). -/
structure AuthUser where
  id : String
  username : String
  role : String
  createdAt : Int
  deriving DecidableEq, Repr

/-- The login response body: bearer token plus user identity. -/
structure AuthData where
  token : String
  user : AuthUser
  deriving DecidableEq, Repr

/-- An outgoing axios request configuration: the target url, the header
map (modelled as an association list), and the remaining fields the
interceptor never touches, represented by `method` and `data`. -/
structure ReqConfig where
  url : String
  headers : List (String × String)
  method : String
  data : String
  deriving DecidableEq, Repr

/-- Assignment into the header map: replace the value at the key if
present, otherwise append the pair. -/
def setHeader (hs : List (String × String)) (k v : String) :
    List (String × String) :=
  match hs with
  | [] => [(k, v)]
  | (k0, v0) :: rest =>
      if k0 = k then (k, v) :: rest else (k0, v0) :: setHeader rest k v

/-- Lookup in the header map. -/
def lookupHeader (hs : List (String × String)) (k : String) : Option String :=
  match hs with
  | [] => none
  | (k0, v) :: rest => if k0 = k then some v else lookupHeader rest k

/-- The statement config.headers["Authorization"] = `Bearer token`. -/
def setAuthHeader (c : ReqConfig) (token : String) : ReqConfig :=
  { c with headers := setHeader c.headers "Authorization" ("Bearer " ++ token) }

/-- Observable effects of the transport, in program order: awaiting the
memoized session promise, the assignment to the last-check field, HTTP
calls issued by the interceptor or the constructor, the console.error
log of the request configuration, and the dispatch of the intercepted
request by axios after the interceptor returns it. -/
inductive Effect where
  | awaitSession : Effect
  | setLastCheck : Int → Effect
  | httpGet : String → Effect
  | httpPost : String → Effect
  | consoleError : ReqConfig → Effect
  | dispatch : ReqConfig → Effect
  deriving DecidableEq, Repr

/-- Result of one interceptor run: the value it returns or the error it
throws, the last-check field afterwards, the world afterwards, and the
effect trace in order. -/
structure InterceptResult where
  outcome : Except String ReqConfig
  lastAuthCheck : Int
  world : World
  effects : List Effect

/-- Shallow embedding of the private interceptor of UmamiApiClient
(named verifyAuth in the source). `auth` is the settled outcome of the
memoized login promise the interceptor awaits; `verifyOutcome` is the
outcome of the nested GET /auth/verify call when one is issued. The
source: passes /auth/login and /collect through untouched; awaits the
session; sets the Authorization header; returns early for /auth/verify;
then, when lastAuthCheck + 60*60*1000 < Date.now(), assigns
lastAuthCheck = Date.now() (a second sample) and awaits
GET /auth/verify, logging the config with console.error and rethrowing
the error if that call fails. -/
def verifyAuth (auth : Except String AuthData)
    (verifyOutcome : Except String Unit) (config : ReqConfig)
    (lastAuthCheck : Int) (w : World) : InterceptResult :=
  if config.url = "/auth/login" ∨ config.url = "/collect" then
    ⟨.ok config, lastAuthCheck, w, []⟩
  else
    match auth with
    | .error e => ⟨.error e, lastAuthCheck, w, [.awaitSession]⟩
    | .ok a =>
        let config2 := setAuthHeader config a.token
        if config2.url = "/auth/verify" then
          ⟨.ok config2, lastAuthCheck, w, [.awaitSession]⟩
        else
          let (now, w1) := dateNow w
          if lastAuthCheck + 60 * 60 * 1000 < now then
            let (now2, w2) := dateNow w1
            match verifyOutcome with
            | .ok _ =>
                ⟨.ok config2, now2, w2,
                  [.awaitSession, .setLastCheck now2, .httpGet "/auth/verify"]⟩
            | .error e =>
                ⟨.error e, now2, w2,
                  [.awaitSession, .setLastCheck now2, .httpGet "/auth/verify",
                    .consoleError config2]⟩
          else ⟨.ok config2, lastAuthCheck, w1, [.awaitSession]⟩

/-- One request through the axios instance: run the interceptor; when it
returns a configuration, axios dispatches it; when it throws, nothing is
dispatched and the caller sees the rejection. -/
def sendRequest (auth : Except String AuthData)
    (verifyOutcome : Except String Unit) (config : ReqConfig)
    (lastAuthCheck : Int) (w : World) : InterceptResult :=
  let r := verifyAuth auth verifyOutcome config lastAuthCheck w
  match r.outcome with
  | .ok c => { r with effects := r.effects ++ [.dispatch c] }
  | .error _ => r

/-- Default axios timeout. UmamiApiClient imports
DEFAULT_HTTP_CLIENT_TIMEOUT_MS from a defaults module; its value (2000
when the environment does not override it) appears in the historical
client kept alongside it. No claim depends on the value. -/
def DEFAULT_HTTP_CLIENT_TIMEOUT_MS : Int := 2000

/-- Regex https?:\/\/ matched at the head of a character list: the two
possible matches, longest (greedy s?) first. -/
def dropScheme (cs : List Char) : Option (List Char) :=
  if ("https://").data.isPrefixOf cs then some (cs.drop 8)
  else if ("http://").data.isPrefixOf cs then some (cs.drop 7)
  else none

/-- String.prototype.replace with the non-global regex https?:\/\/ and
an empty replacement: delete the leftmost match, if any. -/
def replaceFirstScheme : List Char → List Char
  | [] => []
  | c :: cs =>
      match dropScheme (c :: cs) with
      | some rest => rest
      | none => c :: replaceFirstScheme cs

/-- String.prototype.replace with the regex \/$ and an empty
replacement: delete one trailing slash, if any. -/
def stripTrailingSlash (cs : List Char) : List Char :=
  match cs.getLast? with
  | some c => if c = '/' then cs.dropLast else cs
  | none => cs

/-- The constructor's normalization of the server argument:
server.replace(https?:\/\/, "").replace(\/$, ""). -/
def stripServer (s : String) : String :=
  String.mk (stripTrailingSlash (replaceFirstScheme s.data))

/-- A constructed client instance: the axios configuration it creates
and the initial value of the lastAuthCheck field. -/
structure Client where
  baseURL : String
  timeoutMs : Int
  lastAuthCheck : Int
  deriving DecidableEq, Repr

/-- Shallow embedding of the UmamiApiClient constructor. `now` is the
wall-clock value the lastAuthCheck field initializer samples. The source
checks the server argument, strips scheme and trailing slash, checks
username and password, creates the axios instance with baseURL
`http://` ++ server ++ `/api`, and eagerly issues POST /auth/login,
whose promise is memoized in the auth field. The effect list holds the
HTTP calls issued during construction. -/
def construct (server username password : String) (now : Int) :
    Except String Client × List Effect :=
  if server = "" then (.error "A server hostname is required", [])
  else
    let server2 := stripServer server
    if username = "" ∨ password = "" then
      (.error "A username and a password are required", [])
    else
      (.ok { baseURL := "http://" ++ server2 ++ "/api",
             timeoutMs := DEFAULT_HTTP_CLIENT_TIMEOUT_MS,
             lastAuthCheck := now },
        [.httpPost "/auth/login"])

/-- A batch of requests through one client instance, each paired with
the outcome of its nested verification call should one be issued,
threading the last-check field and the world and concatenating the
effect traces. Every request awaits the same memoized `auth` outcome. -/
def runRequests (auth : Except String AuthData) :
    List (ReqConfig × Except String Unit) → Int → World →
      List (Except String ReqConfig) × Int × World × List Effect
  | [], lastC, w => ([], lastC, w, [])
  | (c, vo) :: rest, lastC, w =>
      let r := sendRequest auth vo c lastC w
      let rec2 := runRequests auth rest r.lastAuthCheck r.world
      (r.outcome :: rec2.1, rec2.2.1, rec2.2.2.1, r.effects ++ rec2.2.2.2)

/-- Executable check that `needle` occurs as a contiguous run inside
`hay`; used to state that the error message enumerates every token. -/
def containsSeq (needle : List Char) : List Char → Bool
  | [] => needle.isEmpty
  | c :: rest => needle.isPrefixOf (c :: rest) || containsSeq needle rest

/-- C1 counterexample: the claim says the instant now is sampled a
single time so that endAt - startAt is exactly the class duration, but
the source evaluates `Date.now()` once for startAt and once more for
endAt; on a clock that advances 5 ms between the two samples the call
convertPeriodToTime "1h" yields an interval 3600005 ms wide, not
3600000 ms, and startAt differs from endAt - 3600000. -/
theorem C1_counterexample :
    (convertPeriodToTime "1h"
        ⟨fun i => 1000000000000 + 5 * (i : Int), 0⟩).1 =
      .ok ⟨1000000000000 - 3600000, 1000000000005⟩ ∧
    ¬ ((1000000000005 : Int) - ((1000000000000 : Int) - 3600000) = 3600000) := by
  constructor
  · rfl
  · decide

/-- C1 (amended): convertPeriodToTime samples `Date.now()` twice, once
for startAt and once for endAt; whenever the two samples return the same
instant, every hour-class token yields endAt equal to that instant and
startAt equal to endAt - 3600000 (so the interval is exactly 3600000
ms), and likewise 86400000 ms for day-class, 604800000 ms for
week-class, and 2678400000 ms for month-class tokens. -/
theorem C1_period_durations (p : String) (w : World)
    (hc : w.clock w.tick = w.clock (w.tick + 1)) :
    (p ∈ HOUR_PERIODS →
      (convertPeriodToTime p w).1 =
        .ok ⟨w.clock w.tick - 3600000, w.clock w.tick⟩) ∧
    (p ∈ DAY_PERIODS →
      (convertPeriodToTime p w).1 =
        .ok ⟨w.clock w.tick - 86400000, w.clock w.tick⟩) ∧
    (p ∈ WEEK_PERIODS →
      (convertPeriodToTime p w).1 =
        .ok ⟨w.clock w.tick - 604800000, w.clock w.tick⟩) ∧
    (p ∈ MONTH_PERIODS →
      (convertPeriodToTime p w).1 =
        .ok ⟨w.clock w.tick - 2678400000, w.clock w.tick⟩) := by
  refine ⟨fun h => ?_, fun h => ?_, fun h => ?_, fun h => ?_⟩ <;>
    fin_cases h <;>
    simp [convertPeriodToTime, periodDelta, dateNow, hc,
      HOUR_PERIODS, DAY_PERIODS, WEEK_PERIODS, MONTH_PERIODS]

/-- Witness for C1: the amended theorem applied to the token "24h" on a
constant clock. -/
theorem C1_period_durations_witness :
    (convertPeriodToTime "24h" ⟨fun _ => 1700000000000, 0⟩).1 =
      .ok ⟨1700000000000 - 86400000, 1700000000000⟩ :=
  (C1_period_durations "24h" ⟨fun _ => 1700000000000, 0⟩ rfl).2.1 (by decide)

/-- C5: on any token outside the sixteen accepted spellings,
convertPeriodToTime returns the validation error synchronously, without
reading the clock or changing the world (the function is pure), and the
thrown message enumerates all sixteen accepted tokens. -/
theorem C5_invalid_period (p : String) (h : p ∉ ACCEPTED_PERIODS)
    (w : World) :
    convertPeriodToTime p w = (.error periodErrorMessage, w) ∧
    ACCEPTED_PERIODS.length = 16 ∧
    ∀ t ∈ ACCEPTED_PERIODS,
      containsSeq t.data periodErrorMessage.data = true := by
  refine ⟨?_, by decide, by decide⟩
  simp only [ACCEPTED_PERIODS, List.mem_append, not_or] at h
  obtain ⟨⟨⟨h1, h2⟩, h3⟩, h4⟩ := h
  simp [convertPeriodToTime, periodDelta, h1, h2, h3, h4]

/-- Witness for C5: the theorem applied to the token "bogus". -/
theorem C5_invalid_period_witness :
    convertPeriodToTime "bogus" ⟨fun _ => 0, 0⟩ =
      (.error periodErrorMessage, ⟨fun _ => 0, 0⟩) :=
  (C5_invalid_period "bogus" (by decide) ⟨fun _ => 0, 0⟩).1

/-- C9: the source declares the period parameter with default value
"24h", so the zero-argument call is the call with "24h" at the same
instant, and it lands in the day class: endAt is the second clock sample
and startAt is the first sample minus 86400000 ms. -/
theorem C9_default_period (w : World) :
    convertPeriodToTimeNoArg w = convertPeriodToTime "24h" w ∧
    (convertPeriodToTimeNoArg w).1 =
      .ok ⟨w.clock w.tick - 86400000, w.clock (w.tick + 1)⟩ :=
  ⟨rfl, rfl⟩

/-- C2 counterexample: at exactly one hour since the last check
(now - lastAuthCheck = 3600000) the claim requires a verification call,
but the source condition lastAuthCheck + 60*60*1000 < now is strict, so
zero verify calls are made and the request is dispatched directly. -/
theorem C2_counterexample :
    ((⟨fun _ => 3600000, 0⟩ : World).clock 0 - 0 = 3600000) ∧
    (sendRequest (.ok ⟨"tok", ⟨"1", "admin", "admin", 0⟩⟩) (.ok ())
        ⟨"/websites", [], "get", ""⟩ 0 ⟨fun _ => 3600000, 0⟩).effects =
      [.awaitSession,
        .dispatch (setAuthHeader ⟨"/websites", [], "get", ""⟩ "tok")] := by
  exact ⟨rfl, rfl⟩

/-- C2 (amended): for an authenticated request (target not login,
collect or verify) with the session resolved, a GET /auth/verify is
issued exactly when strictly more than one hour has elapsed since the
last check (lastAuthCheck + 3600000 < now); when issued it comes after
the optimistic last-check update and strictly before the dispatch of the
original request, and the stored timestamp becomes the fresh clock
sample; when not strictly more than one hour has elapsed, zero verify
calls are made and the request is dispatched with the injected header,
the timestamp untouched. -/
theorem C2_reverify_condition (a : AuthData) (vo : Except String Unit)
    (c : ReqConfig) (lastC : Int) (w : World)
    (h1 : c.url ≠ "/auth/login") (h2 : c.url ≠ "/collect")
    (h3 : c.url ≠ "/auth/verify") :
    (lastC + 3600000 < w.clock w.tick →
      (vo = .ok () →
        (sendRequest (.ok a) vo c lastC w).effects =
          [.awaitSession, .setLastCheck (w.clock (w.tick + 1)),
            .httpGet "/auth/verify",
            .dispatch (setAuthHeader c a.token)]) ∧
      (∀ e, vo = .error e →
        (sendRequest (.ok a) vo c lastC w).effects =
          [.awaitSession, .setLastCheck (w.clock (w.tick + 1)),
            .httpGet "/auth/verify",
            .consoleError (setAuthHeader c a.token)]) ∧
      (sendRequest (.ok a) vo c lastC w).lastAuthCheck =
        w.clock (w.tick + 1)) ∧
    (¬ lastC + 3600000 < w.clock w.tick →
      (sendRequest (.ok a) vo c lastC w).effects =
        [.awaitSession, .dispatch (setAuthHeader c a.token)] ∧
      (sendRequest (.ok a) vo c lastC w).lastAuthCheck = lastC) := by
  have hor : ¬ (c.url = "/auth/login" ∨ c.url = "/collect") := by
    simp [h1, h2]
  have hu : (setAuthHeader c a.token).url = c.url := rfl
  constructor
  · intro hdue
    refine ⟨fun hvo => ?_, fun e hvo => ?_, ?_⟩
    · subst hvo
      simp [sendRequest, verifyAuth, dateNow, hor, hu, h3, hdue]
    · subst hvo
      simp [sendRequest, verifyAuth, dateNow, hor, hu, h3, hdue]
    · cases vo <;>
        simp [sendRequest, verifyAuth, dateNow, hor, hu, h3, hdue]
  · intro hnot
    cases vo <;>
      simp [sendRequest, verifyAuth, dateNow, hor, hu, h3, hnot]

/-- Witness for C2: the amended theorem on a clock 3600001 ms past the
last check, where one verify call precedes the dispatch. -/
theorem C2_reverify_condition_witness :
    (sendRequest (.ok ⟨"tok", ⟨"1", "a", "admin", 0⟩⟩) (.ok ())
        ⟨"/websites", [], "get", ""⟩ 0 ⟨fun i => 3600001 + (i : Int), 0⟩).effects =
      [.awaitSession, .setLastCheck 3600002, .httpGet "/auth/verify",
        .dispatch (setAuthHeader ⟨"/websites", [], "get", ""⟩ "tok")] := by
  have h := C2_reverify_condition ⟨"tok", ⟨"1", "a", "admin", 0⟩⟩ (.ok ())
      ⟨"/websites", [], "get", ""⟩ 0 ⟨fun i => 3600001 + (i : Int), 0⟩
      (by decide) (by decide) (by decide)
  exact (h.1 (by decide)).1 rfl

/-- C3 counterexample: when the pre-request verify call fails, the
caller's rejection is the underlying error itself (here the literal
"Request failed with status code 500"), not an error whose message is
"could not verify authentication"; the configuration is logged via
console.error and nothing is dispatched, as the explicit trace shows. -/
theorem C3_counterexample :
    (sendRequest (.ok ⟨"tok", ⟨"1", "admin", "admin", 0⟩⟩)
        (.error "Request failed with status code 500")
        ⟨"/websites", [], "get", ""⟩ 0 ⟨fun _ => 7200000, 0⟩).outcome =
      .error "Request failed with status code 500" ∧
    (sendRequest (.ok ⟨"tok", ⟨"1", "admin", "admin", 0⟩⟩)
        (.error "Request failed with status code 500")
        ⟨"/websites", [], "get", ""⟩ 0 ⟨fun _ => 7200000, 0⟩).effects =
      [.awaitSession, .setLastCheck 7200000, .httpGet "/auth/verify",
        .consoleError ⟨"/websites", [("Authorization", "Bearer tok")], "get", ""⟩] ∧
    "Request failed with status code 500" ≠ "could not verify authentication" := by
  exact ⟨rfl, rfl, by decide⟩

/-- C3 (amended): whenever the pre-request GET /auth/verify fails, the
original request is never dispatched and the caller's call rejects with
the underlying verification error itself; the request's configuration
(with the injected header) is logged to the console rather than attached
to a wrapping error. -/
theorem C3_verify_failure (a : AuthData) (e : String) (c : ReqConfig)
    (lastC : Int) (w : World)
    (h1 : c.url ≠ "/auth/login") (h2 : c.url ≠ "/collect")
    (h3 : c.url ≠ "/auth/verify")
    (hdue : lastC + 3600000 < w.clock w.tick) :
    (sendRequest (.ok a) (.error e) c lastC w).outcome = .error e ∧
    (∀ cfg, Effect.dispatch cfg ∉
      (sendRequest (.ok a) (.error e) c lastC w).effects) ∧
    Effect.consoleError (setAuthHeader c a.token) ∈
      (sendRequest (.ok a) (.error e) c lastC w).effects := by
  have hor : ¬ (c.url = "/auth/login" ∨ c.url = "/collect") := by
    simp [h1, h2]
  have hu : (setAuthHeader c a.token).url = c.url := rfl
  refine ⟨?_, ?_, ?_⟩ <;>
    simp [sendRequest, verifyAuth, dateNow, hor, hu, h3, hdue]

/-- Witness for C3: the theorem on a clock two hours past the last
check with a failing verify call. -/
theorem C3_verify_failure_witness :
    (sendRequest (.ok ⟨"tok", ⟨"1", "a", "admin", 0⟩⟩) (.error "boom")
        ⟨"/websites", [], "get", ""⟩ 0 ⟨fun _ => 7200000, 0⟩).outcome =
      .error "boom" :=
  (C3_verify_failure ⟨"tok", ⟨"1", "a", "admin", 0⟩⟩ "boom"
      ⟨"/websites", [], "get", ""⟩ 0 ⟨fun _ => 7200000, 0⟩
      (by decide) (by decide) (by decide) (by decide)).1

/-- C6 counterexample: the thrown message for an empty server argument
is "A server hostname is required", not the claimed exact message
"server hostname is required". -/
theorem C6_counterexample :
    (construct "" "user" "pass" 0).1 = .error "A server hostname is required" ∧
    "A server hostname is required" ≠ "server hostname is required" := by
  exact ⟨rfl, by decide⟩

/-- C6 (amended): an empty server argument makes construction fail
synchronously with the message "A server hostname is required", and a
non-empty server with an empty username or password fails with
"A username and a password are required"; in both cases the effect list
is empty, so zero HTTP calls, including the login POST, are issued. -/
theorem C6_config_errors (s u pw : String) (now : Int) :
    (s = "" →
      construct s u pw now = (.error "A server hostname is required", [])) ∧
    (s ≠ "" → (u = "" ∨ pw = "") →
      construct s u pw now =
        (.error "A username and a password are required", [])) := by
  constructor
  · intro h
    subst h
    rfl
  · intro hs hup
    simp [construct, hs, hup]

/-- Witness for C6: the theorem at an empty server and at an empty
username. -/
theorem C6_config_errors_witness :
    construct "" "user" "pass" 5 =
      (.error "A server hostname is required", []) ∧
    construct "stats.example.com" "" "pass" 5 =
      (.error "A username and a password are required", []) :=
  ⟨(C6_config_errors "" "user" "pass" 5).1 rfl,
    (C6_config_errors "stats.example.com" "" "pass" 5).2 (by decide) (Or.inl rfl)⟩

/-- C7: evaluating the constructor on a server argument carrying a
scheme and a trailing slash shows both are stripped as the claim says,
but the configured base URL uses the plain http scheme, not https: the
claim (and the https used by the static collect helper in the same file
and by every historical client in the repository) is contradicted by the
http literal in the constructor. -/
theorem C7_base_url_scheme :
    (construct "https://stats.example.com/" "admin" "password" 0).1 =
      .ok ⟨"http://stats.example.com/api", 2000, 0⟩ ∧
    "http://stats.example.com/api" ≠ "https://stats.example.com/api" := by
  exact ⟨rfl, by decide⟩

theorem lookupHeader_setHeader_self (hs : List (String × String))
    (k v : String) : lookupHeader (setHeader hs k v) k = some v := by
  induction hs with
  | nil => simp [setHeader, lookupHeader]
  | cons p rest ih =>
      obtain ⟨k0, v0⟩ := p
      by_cases hk : k0 = k <;> simp [setHeader, lookupHeader, hk, ih]

theorem lookupHeader_setHeader_other (hs : List (String × String))
    (k v k2 : String) (hne : k2 ≠ k) :
    lookupHeader (setHeader hs k v) k2 = lookupHeader hs k2 := by
  induction hs with
  | nil => simp [setHeader, lookupHeader, hne.symm]
  | cons p rest ih =>
      obtain ⟨k0, v0⟩ := p
      by_cases hk : k0 = k
      · subst hk
        simp [setHeader, lookupHeader, hne.symm]
      · simp [setHeader, lookupHeader, hk, ih]

/-- C4: the interceptor passes /auth/login and /collect through
unmodified with an empty effect trace (in particular it does not await
the session); for every other target it awaits the session and, whenever
it returns a configuration, that configuration is exactly the original
with the Authorization header set to Bearer followed by the session
token: the url, method and data fields and every other header key are
unchanged. -/
theorem C4_interceptor_frame (a : AuthData) (auth : Except String AuthData)
    (vo : Except String Unit) (c : ReqConfig) (lastC : Int) (w : World) :
    ((c.url = "/auth/login" ∨ c.url = "/collect") →
      verifyAuth auth vo c lastC w = ⟨.ok c, lastC, w, []⟩) ∧
    (¬ (c.url = "/auth/login" ∨ c.url = "/collect") →
      Effect.awaitSession ∈ (verifyAuth (.ok a) vo c lastC w).effects ∧
      (∀ c2, (verifyAuth (.ok a) vo c lastC w).outcome = .ok c2 →
        c2 = setAuthHeader c a.token) ∧
      (setAuthHeader c a.token).url = c.url ∧
      (setAuthHeader c a.token).method = c.method ∧
      (setAuthHeader c a.token).data = c.data ∧
      lookupHeader (setAuthHeader c a.token).headers "Authorization" =
        some ("Bearer " ++ a.token) ∧
      ∀ k, k ≠ "Authorization" →
        lookupHeader (setAuthHeader c a.token).headers k =
          lookupHeader c.headers k) := by
  constructor
  · intro hor
    simp [verifyAuth, hor]
  · intro hor
    refine ⟨?_, ?_, rfl, rfl, rfl,
      lookupHeader_setHeader_self c.headers "Authorization" ("Bearer " ++ a.token),
      fun k hk => lookupHeader_setHeader_other c.headers "Authorization"
        ("Bearer " ++ a.token) k hk⟩
    · simp only [verifyAuth, if_neg hor, dateNow]
      repeat' split
      all_goals simp
    · intro c2 hc2
      simp only [verifyAuth, if_neg hor, dateNow] at hc2
      repeat' split at hc2
      all_goals simp_all

/-- Witness for C4: login passes through untouched on one concrete
configuration, and on a /websites request the returned configuration is
the original with the bearer header set. -/
theorem C4_interceptor_frame_witness :
    verifyAuth (.ok ⟨"tok", ⟨"1", "a", "admin", 0⟩⟩) (.ok ())
        ⟨"/auth/login", [], "post", ""⟩ 0 ⟨fun _ => 0, 0⟩ =
      ⟨.ok ⟨"/auth/login", [], "post", ""⟩, 0, ⟨fun _ => 0, 0⟩, []⟩ ∧
    lookupHeader
        (setAuthHeader ⟨"/websites", [], "get", ""⟩ "tok").headers
        "Authorization" = some ("Bearer " ++ "tok") := by
  refine ⟨?_, ?_⟩
  · exact (C4_interceptor_frame ⟨"tok", ⟨"1", "a", "admin", 0⟩⟩
      (.ok ⟨"tok", ⟨"1", "a", "admin", 0⟩⟩) (.ok ())
      ⟨"/auth/login", [], "post", ""⟩ 0 ⟨fun _ => 0, 0⟩).1 (Or.inl rfl)
  · exact ((C4_interceptor_frame ⟨"tok", ⟨"1", "a", "admin", 0⟩⟩
      (.ok ⟨"tok", ⟨"1", "a", "admin", 0⟩⟩) (.ok ())
      ⟨"/websites", [], "get", ""⟩ 0 ⟨fun _ => 0, 0⟩).2
      (by decide)).2.2.2.2.2.1

theorem sendRequest_no_httpPost (auth : Except String AuthData)
    (vo : Except String Unit) (c : ReqConfig) (lastC : Int) (w : World)
    (u : String) :
    Effect.httpPost u ∉ (sendRequest auth vo c lastC w).effects := by
  simp only [sendRequest, verifyAuth, dateNow]
  repeat' split
  all_goals simp

theorem runRequests_no_login_post (auth : Except String AuthData)
    (reqs : List (ReqConfig × Except String Unit)) (lastC : Int)
    (w : World) (u : String) :
    Effect.httpPost u ∉ (runRequests auth reqs lastC w).2.2.2 := by
  induction reqs generalizing lastC w with
  | nil => simp [runRequests]
  | cons q rest ih =>
      obtain ⟨c, vo⟩ := q
      simp only [runRequests, List.mem_append, not_or]
      exact ⟨sendRequest_no_httpPost auth vo c lastC w u, ih _ _⟩

theorem runRequests_login_error (e : String)
    (reqs : List (ReqConfig × Except String Unit)) (lastC : Int)
    (w : World) :
    (runRequests (.error e) reqs lastC w).1 =
      reqs.map (fun q =>
        if q.1.url = "/auth/login" ∨ q.1.url = "/collect" then .ok q.1
        else .error e) := by
  induction reqs generalizing lastC w with
  | nil => simp [runRequests]
  | cons q rest ih =>
      obtain ⟨c, vo⟩ := q
      by_cases hor : c.url = "/auth/login" ∨ c.url = "/collect" <;>
        simp [runRequests, sendRequest, verifyAuth, hor, ih]

/-- C8: for a successfully constructed client, across construction plus
any batch of requests whose targets are not the login endpoint, exactly
one POST /auth/login is issued (the one memoized by the constructor; the
interceptor never issues another), and when the shared login outcome is
a rejection, every request in the batch other than the pass-through
login and collect targets rejects with that same login error. -/
theorem C8_single_login (s u pw : String) (now lastC : Int)
    (hs : s ≠ "") (hu : u ≠ "") (hp : pw ≠ "")
    (auth : Except String AuthData)
    (reqs : List (ReqConfig × Except String Unit)) (w : World) :
    ((construct s u pw now).2 ++
        (runRequests auth reqs lastC w).2.2.2).count
      (Effect.httpPost "/auth/login") = 1 ∧
    (∀ e, auth = .error e →
      (runRequests auth reqs lastC w).1 =
        reqs.map (fun q =>
          if q.1.url = "/auth/login" ∨ q.1.url = "/collect" then .ok q.1
          else .error e)) := by
  constructor
  · have hc : (construct s u pw now).2 = [Effect.httpPost "/auth/login"] := by
      simp [construct, hs, hu, hp]
    rw [List.count_append, hc,
      List.count_eq_zero.mpr (runRequests_no_login_post auth reqs lastC w
        "/auth/login")]
    rfl
  · intro e he
    subst he
    exact runRequests_login_error e reqs lastC w

/-- Witness for C8: a concrete client with a rejected login and one
/websites request: one login POST in total, and the request rejects with
the login error. -/
theorem C8_single_login_witness :
    ((construct "host" "user" "pass" 0).2 ++
        (runRequests (.error "login failed")
          [(⟨"/websites", [], "get", ""⟩, .ok ())] 0 ⟨fun _ => 0, 0⟩).2.2.2).count
      (Effect.httpPost "/auth/login") = 1 ∧
    (runRequests (.error "login failed")
        [(⟨"/websites", [], "get", ""⟩, .ok ())] 0 ⟨fun _ => 0, 0⟩).1 =
      [.error "login failed"] := by
  have h := C8_single_login "host" "user" "pass" 0 0 (by decide) (by decide)
      (by decide) (.error "login failed")
      [(⟨"/websites", [], "get", ""⟩, .ok ())] ⟨fun _ => 0, 0⟩
  refine ⟨h.1, ?_⟩
  rw [h.2 "login failed" rfl]
  rfl

/-- C10: the lastAuthCheck field is initialized to the construction-time
clock sample; whenever the interceptor issues a verification call the
field is advanced to the fresh clock sample whether or not the call
succeeds; and whenever at most one hour has elapsed since the stored
check (now - lastAuthCheck ≤ 3600000) no verification call is issued, so
requests within one hour of construction, or within one hour of a failed
attempt, never trigger GET /auth/verify. -/
theorem C10_last_check_lifecycle (s u pw : String) (now : Int)
    (auth : Except String AuthData) (vo : Except String Unit)
    (c : ReqConfig) (lastC : Int) (w : World) :
    (∀ cl effs, construct s u pw now = (.ok cl, effs) →
      cl.lastAuthCheck = now) ∧
    (Effect.httpGet "/auth/verify" ∈ (verifyAuth auth vo c lastC w).effects →
      (verifyAuth auth vo c lastC w).lastAuthCheck = w.clock (w.tick + 1)) ∧
    (w.clock w.tick - lastC ≤ 3600000 →
      Effect.httpGet "/auth/verify" ∉ (verifyAuth auth vo c lastC w).effects) := by
  refine ⟨?_, ?_, ?_⟩
  · intro cl effs h
    unfold construct at h
    split at h
    · simp at h
    · split at h
      · simp at h
      · simp only [Prod.mk.injEq, Except.ok.injEq] at h
        rw [← h.1]
  · simp only [verifyAuth, dateNow]
    repeat' split
    all_goals simp
  · intro hle
    have hnot : ¬ (lastC + 60 * 60 * 1000 < w.clock w.tick) := by omega
    simp only [verifyAuth, dateNow]
    repeat' split
    all_goals simp_all

/-- Witness for C10: a client constructed at time 42 has lastAuthCheck
42, and a request exactly one hour later issues no verification call. -/
theorem C10_last_check_lifecycle_witness :
    (⟨"http://h/api", 2000, 42⟩ : Client).lastAuthCheck = 42 ∧
    Effect.httpGet "/auth/verify" ∉
      (verifyAuth (.ok ⟨"tok", ⟨"1", "a", "admin", 0⟩⟩) (.ok ())
        ⟨"/websites", [], "get", ""⟩ 42 ⟨fun _ => 3600042, 0⟩).effects := by
  have h := C10_last_check_lifecycle "h" "u" "p" 42
      (.ok ⟨"tok", ⟨"1", "a", "admin", 0⟩⟩) (.ok ())
      ⟨"/websites", [], "get", ""⟩ 42 ⟨fun _ => 3600042, 0⟩
  exact ⟨h.1 ⟨"http://h/api", 2000, 42⟩ [.httpPost "/auth/login"] rfl,
    h.2.2 (by decide)⟩

end UmamiClient
